import Mathlib

/-!
Verification development for the AI-image-detector application (`src/app.py`).

The application's core logic consists of two functions:

* `preprocess_image` — resizes an uploaded PIL image to 224×224, drops an
  alpha channel when the image mode is exactly `RGBA`, converts to a numpy
  array, scales every channel byte by `1/255`, and adds a leading batch
  dimension; any exception in those steps is caught and `None` is returned.
* `predict_image_class` — if the model or batch is `None` it returns
  `("Error", 0.0)`; otherwise it runs the model, takes `predictions[0][0]`
  as the probability that the image is AI-generated, and applies the fixed
  threshold `PREDICTION_THRESHOLD = 0.5`: at or above the threshold the
  label is `CLASS_LABELS[1]` with confidence `p`, below it the label is
  `CLASS_LABELS[0]` with confidence `1 - p`.  Any exception raised during
  prediction is caught and `("Error during prediction", 0.0)` is returned.

Python floats are embedded as `ℚ` (the decision logic only compares and
subtracts, so exact arithmetic is a faithful model), numpy arrays as a
nested inductive `NDArray`, and fallible library calls as `Except`.
-/

/-- A numpy ndarray of floats: either a scalar or a list of subarrays.
Arrays produced by the code are regular (all siblings share a shape). -/
inductive NDArray : Type where
  | scalar (v : ℚ) : NDArray
  | arr (xs : List NDArray) : NDArray

/-- `a.shape`, read off the first element at each level, as numpy does for
the regular arrays this program builds. -/
def NDArray.shape : NDArray → List Nat
  | .scalar _ => []
  | .arr [] => [0]
  | .arr (x :: xs) => (xs.length + 1) :: x.shape

/-- Multi-index lookup `a[i₀][i₁]…`, `none` when an index is out of range
or the nesting depth does not match. -/
def getIdx : List Nat → NDArray → Option ℚ
  | [], .scalar v => some v
  | [], .arr _ => none
  | _ :: _, .scalar _ => none
  | i :: is, .arr xs => xs[i]?.bind (getIdx is)

mutual
/-- Elementwise division by 255 (`image_array / 255.0` in the source). -/
def NDArray.div255 : NDArray → NDArray
  | .scalar v => .scalar (v / 255)
  | .arr xs => .arr (div255List xs)

/-- `div255` mapped over a list of subarrays. -/
def div255List : List NDArray → List NDArray
  | [] => []
  | x :: xs => x.div255 :: div255List xs
end

mutual
/-- `true` iff the boolean predicate holds of every scalar in the array. -/
def NDArray.allB (p : ℚ → Bool) : NDArray → Bool
  | .scalar v => p v
  | .arr xs => allBList p xs

/-- `allB` over a list of subarrays. -/
def allBList (p : ℚ → Bool) : List NDArray → Bool
  | [] => true
  | x :: xs => x.allB p && allBList p xs
end

-- Configuration constants of `src/app.py`.

def IMG_WIDTH : Nat := 224

def IMG_HEIGHT : Nat := 224

def PREDICTION_THRESHOLD : ℚ := 1 / 2

/-- The label dictionary `{0: "Authentic (Real) Image", 1: "AI-Generated Image"}`;
the program only ever looks up keys 0 and 1. -/
def CLASS_LABELS (i : Nat) : String :=
  if i = 1 then "AI-Generated Image" else "Authentic (Real) Image"

/-- A PIL image: a mode string (`"RGB"`, `"RGBA"`, `"L"`, …), a size, and the
pixel grid `px y x`, a list of 8-bit channel values per pixel.  `corrupt`
models a lazily-decoded file whose pixel access raises inside `resize`
(the failure the source's `try/except` around preprocessing catches). -/
structure PILImage where
  mode : String
  width : Nat
  height : Nat
  px : Nat → Nat → List Nat
  corrupt : Bool

/-- Channel count of a PIL mode, for the modes this development uses. -/
def channels (mode : String) : Nat :=
  if mode = "RGBA" then 4 else if mode = "RGB" then 3 else 1

/-- Well-formedness of a PIL image: each pixel has exactly `channels mode`
channels and every channel value is an 8-bit byte. -/
def PILImage.WF (img : PILImage) : Prop :=
  ∀ y x, (img.px y x).length = channels img.mode ∧ ∀ v ∈ img.px y x, v ≤ 255

/-- `image_pil.resize((w, h))`.  The exact resampling filter is not
semantically load-bearing; nearest-neighbour sampling (PIL's `NEAREST`
filter) stands in for it.  Resizing preserves the mode and yields a `w`×`h`
image; a corrupt data stream raises, modelled by the `.error` branch. -/
def PILImage.resize (img : PILImage) (size : Nat × Nat) : Except String PILImage :=
  if img.corrupt then .error "broken data stream" else
  .ok { mode := img.mode, width := size.1, height := size.2,
        px := fun y x => img.px (y * img.height / size.2) (x * img.width / size.1),
        corrupt := false }

/-- `image.convert('RGB')` applied to an RGBA image: PIL drops the alpha
channel, keeping the first three channel values of every pixel. -/
def PILImage.convertRGB (img : PILImage) : PILImage :=
  { img with mode := "RGB", px := fun y x => (img.px y x).take 3 }

/-- `np.array(image)`: a single-channel mode (e.g. `"L"`) yields a 2-D
`(height, width)` array of the channel values; a multi-channel mode yields a
3-D `(height, width, channels)` array. -/
def imageToArray (img : PILImage) : NDArray :=
  if channels img.mode = 1 then
    .arr ((List.range img.height).map fun y =>
      .arr ((List.range img.width).map fun x =>
        .scalar (((img.px y x).headD 0 : Nat) : ℚ)))
  else
    .arr ((List.range img.height).map fun y =>
      .arr ((List.range img.width).map fun x =>
        .arr ((img.px y x).map fun v => .scalar ((v : Nat) : ℚ))))

/-- `preprocess_image` from `src/app.py`: resize to `(IMG_WIDTH, IMG_HEIGHT)`,
convert `RGBA` to `RGB`, convert to a numpy array, divide by 255, and expand
a leading batch dimension; an exception in these steps is caught and `None`
(`none`) is returned. -/
def preprocess_image (image_pil : PILImage) : Option NDArray :=
  match image_pil.resize (IMG_WIDTH, IMG_HEIGHT) with
  | .error _ => none
  | .ok r =>
    let image_resized := if r.mode = "RGBA" then r.convertRGB else r
    let image_array := imageToArray image_resized
    let image_array := image_array.div255
    some (.arr [image_array])

/-- The loaded classifier: `predict` runs a forward pass on a batch and
returns the prediction array (as rows of floats), or raises. -/
structure Model where
  predict : NDArray → Except String (List (List ℚ))

/-- `predict_image_class` from `src/app.py`.  `None` model or batch gives
`("Error", 0.0)`.  Otherwise `predictions[0][0]` is read (an out-of-range
index raises, landing in the same `except` branch as a raising forward
pass, which returns `("Error during prediction", 0.0)`) and compared with
`PREDICTION_THRESHOLD`. -/
def predict_image_class (image_batch : Option NDArray) (trained_model : Option Model) :
    String × ℚ :=
  match trained_model, image_batch with
  | none, _ => ("Error", 0)
  | some _, none => ("Error", 0)
  | some m, some b =>
    match m.predict b with
    | .error _ => ("Error during prediction", 0)
    | .ok predictions =>
      match predictions.head? >>= List.head? with
      | none => ("Error during prediction", 0)
      | some confidence_ai =>
        if PREDICTION_THRESHOLD ≤ confidence_ai then
          (CLASS_LABELS 1, confidence_ai)
        else
          (CLASS_LABELS 0, 1 - confidence_ai)

/-- Python's `pat in s` substring test on strings. -/
def strContains (s pat : String) : Bool :=
  (List.range (s.length + 1)).any fun i => pat.toList.isPrefixOf (s.toList.drop i)

/-- A concrete 2×2 RGB test image with constant pixel `[10, 20, 30]`. -/
def rgbImg : PILImage :=
  { mode := "RGB", width := 2, height := 2, px := fun _ _ => [10, 20, 30],
    corrupt := false }

/-- A concrete 5×7 grayscale test image with constant pixel `[128]`. -/
def grayImg : PILImage :=
  { mode := "L", width := 5, height := 7, px := fun _ _ => [128], corrupt := false }

/-- A concrete image whose data stream raises during resize. -/
def corruptImg : PILImage :=
  { mode := "RGB", width := 10, height := 10, px := fun _ _ => [0, 0, 0],
    corrupt := true }

-- ### Theorems about the decision procedure (`predict_image_class`)

/-- C1: for every classifier probability `p ∈ [0,1]` with
`p ≥ PREDICTION_THRESHOLD` (the fixed threshold `0.5`), including `p`
exactly at the threshold, `predict_image_class` returns the AI-Generated
label with confidence equal to `p`. -/
theorem predict_ai_branch (b : NDArray) (m : Model) (p : ℚ)
    (hpred : m.predict b = .ok [[p]])
    (h0 : 0 ≤ p) (h1 : p ≤ 1) (hT : PREDICTION_THRESHOLD ≤ p) :
    predict_image_class (some b) (some m) = ("AI-Generated Image", p) := by
  simp [predict_image_class, hpred, CLASS_LABELS, if_pos hT]

/-- Witness for C1, at the inclusive boundary `p = 0.5`. -/
theorem predict_ai_branch_witness :
    predict_image_class (some (.scalar 0)) (some ⟨fun _ => .ok [[1/2]]⟩) =
      ("AI-Generated Image", 1/2) :=
  predict_ai_branch (.scalar 0) ⟨fun _ => .ok [[1/2]]⟩ (1/2) rfl
    (by norm_num) (by norm_num) (by norm_num [PREDICTION_THRESHOLD])

/-- C2: for every classifier probability `p ∈ [0, 0.5)` (strictly below
the threshold), `predict_image_class` returns the Authentic label with
confidence `1 - p`. -/
theorem predict_authentic_branch (b : NDArray) (m : Model) (p : ℚ)
    (hpred : m.predict b = .ok [[p]])
    (h0 : 0 ≤ p) (hlt : p < PREDICTION_THRESHOLD) :
    predict_image_class (some b) (some m) = ("Authentic (Real) Image", 1 - p) := by
  simp [predict_image_class, hpred, CLASS_LABELS, if_neg (not_le.mpr hlt)]

/-- Witness for C2: `p = 0.37` yields `(Authentic, 0.63)` and `p = 0`
yields `(Authentic, 1)`. -/
theorem predict_authentic_branch_witness :
    predict_image_class (some (.scalar 0)) (some ⟨fun _ => .ok [[37/100]]⟩) =
      ("Authentic (Real) Image", 63/100) ∧
    predict_image_class (some (.scalar 0)) (some ⟨fun _ => .ok [[0]]⟩) =
      ("Authentic (Real) Image", 1) :=
  ⟨(predict_authentic_branch (.scalar 0) ⟨fun _ => .ok [[37/100]]⟩ (37/100) rfl
      (by norm_num) (by norm_num [PREDICTION_THRESHOLD])).trans (by norm_num),
   (predict_authentic_branch (.scalar 0) ⟨fun _ => .ok [[0]]⟩ 0 rfl
      le_rfl (by norm_num [PREDICTION_THRESHOLD])).trans (by norm_num)⟩

/-- C4: when the model or the batch is unavailable (`none`),
`predict_image_class` returns `("Error", 0)`.  The model is universally
quantified and its `predict` field is never consulted, so the classifier is
not invoked; the function is total, so no exception is raised. -/
theorem predict_unavailable (b : Option NDArray) (m : Option Model)
    (h : m = none ∨ b = none) :
    predict_image_class b m = ("Error", 0) := by
  rcases h with h | h
  · subst h; cases b <;> rfl
  · subst h; cases m <;> rfl

/-- Witness for C4: a batch of `none` with a present model. -/
theorem predict_unavailable_witness :
    predict_image_class none (some ⟨fun _ => .ok [[1]]⟩) = ("Error", 0) :=
  predict_unavailable none (some ⟨fun _ => .ok [[1]]⟩) (Or.inr rfl)

/-- C5: when the classifier raises during the forward pass,
`predict_image_class` returns `("Error during prediction", 0)`; the
embedding is a total function, so the exception does not propagate. -/
theorem predict_inference_failure (b : NDArray) (m : Model) (e : String)
    (hpred : m.predict b = .error e) :
    predict_image_class (some b) (some m) = ("Error during prediction", 0) := by
  simp only [predict_image_class, hpred]

/-- Witness for C5: a model whose forward pass raises a shape mismatch. -/
theorem predict_inference_failure_witness :
    predict_image_class (some (.scalar 0)) (some ⟨fun _ => .error "shape mismatch"⟩) =
      ("Error during prediction", 0) :=
  predict_inference_failure (.scalar 0) ⟨fun _ => .error "shape mismatch"⟩
    "shape mismatch" rfl

/-- C7: both core functions are deterministic pure functions of their
inputs: equal inputs give equal outputs, with no hidden state and no
randomness (both are total Lean functions of their arguments only). -/
theorem core_functions_deterministic (img₁ img₂ : PILImage)
    (b₁ b₂ : Option NDArray) (m₁ m₂ : Option Model)
    (himg : img₁ = img₂) (hb : b₁ = b₂) (hm : m₁ = m₂) :
    preprocess_image img₁ = preprocess_image img₂ ∧
    predict_image_class b₁ m₁ = predict_image_class b₂ m₂ := by
  subst himg; subst hb; subst hm; exact ⟨rfl, rfl⟩

/-- Witness for C7 at concrete inputs. -/
theorem core_functions_deterministic_witness :
    preprocess_image ⟨"RGB", 1, 1, fun _ _ => [0, 0, 0], false⟩ =
      preprocess_image ⟨"RGB", 1, 1, fun _ _ => [0, 0, 0], false⟩ ∧
    predict_image_class none none = predict_image_class none none :=
  core_functions_deterministic _ _ _ _ _ _ rfl rfl rfl

/-- C8: a successful classification of a probability `p ∈ [0,1]` always
reports a confidence in `[0.5, 1]`: the AI branch reports `p ≥ 0.5` and the
Authentic branch reports `1 - p > 0.5`. -/
theorem predict_confidence_bounds (b : NDArray) (m : Model) (p : ℚ)
    (hpred : m.predict b = .ok [[p]]) (h0 : 0 ≤ p) (h1 : p ≤ 1) :
    1/2 ≤ (predict_image_class (some b) (some m)).2 ∧
    (predict_image_class (some b) (some m)).2 ≤ 1 := by
  by_cases hT : PREDICTION_THRESHOLD ≤ p
  · rw [predict_ai_branch b m p hpred h0 h1 hT]
    exact ⟨le_trans (by norm_num [PREDICTION_THRESHOLD] at hT ⊢; exact hT) le_rfl |>.trans le_rfl, h1⟩
  · rw [predict_authentic_branch b m p hpred h0 (not_le.mp hT)]
    have hp : p < 1/2 := by simpa [PREDICTION_THRESHOLD] using not_le.mp hT
    constructor <;> simp <;> linarith

/-- Witness for C8 at `p = 0.37`. -/
theorem predict_confidence_bounds_witness :
    1/2 ≤ (predict_image_class (some (.scalar 0)) (some ⟨fun _ => .ok [[37/100]]⟩)).2 ∧
    (predict_image_class (some (.scalar 0)) (some ⟨fun _ => .ok [[37/100]]⟩)).2 ≤ 1 :=
  predict_confidence_bounds (.scalar 0) ⟨fun _ => .ok [[37/100]]⟩ (37/100) rfl
    (by norm_num) (by norm_num)

/-- C10: the label returned by `predict_image_class` fails Python's
`"Error" in label` substring test exactly when it is one of the two success
labels `CLASS_LABELS 0` / `CLASS_LABELS 1`; both failure labels contain
`"Error"`, so the caller's check distinguishes successes from failures. -/
theorem error_substring_distinguishes (b : Option NDArray) (m : Option Model) :
    (strContains (predict_image_class b m).1 "Error" = false ↔
      ((predict_image_class b m).1 = CLASS_LABELS 0 ∨
       (predict_image_class b m).1 = CLASS_LABELS 1)) := by
  have hlab : (predict_image_class b m).1 = "Error" ∨
      (predict_image_class b m).1 = "Error during prediction" ∨
      (predict_image_class b m).1 = CLASS_LABELS 0 ∨
      (predict_image_class b m).1 = CLASS_LABELS 1 := by
    unfold predict_image_class
    rcases m with _ | m
    · simp
    rcases b with _ | b
    · simp
    rcases hp : m.predict b with e | preds
    · simp [hp]
    rcases hh : preds.head? >>= List.head? with _ | c
    · simp only [hp]
      simp only [bind] at hh
      simp [hh]
    · simp only [hp]
      simp only [bind] at hh
      by_cases hT : PREDICTION_THRESHOLD ≤ c <;> simp [hh, hT, CLASS_LABELS]
  rcases hlab with h | h | h | h <;> rw [h] <;> decide

-- ### Helper lemmas about the array embedding

theorem div255List_eq_map (xs : List NDArray) :
    div255List xs = xs.map NDArray.div255 := by
  induction xs with
  | nil => rfl
  | cons x xs ih => simp [div255List, ih]

theorem div255_arr (xs : List NDArray) :
    (NDArray.arr xs).div255 = .arr (xs.map NDArray.div255) := by
  simp [NDArray.div255, div255List_eq_map]

theorem div255_scalar (v : ℚ) : (NDArray.scalar v).div255 = .scalar (v / 255) := rfl

theorem allBList_eq_all (p : ℚ → Bool) (xs : List NDArray) :
    allBList p xs = xs.all (NDArray.allB p) := by
  induction xs with
  | nil => rfl
  | cons x xs ih => simp [allBList, ih]

theorem allB_arr (p : ℚ → Bool) (xs : List NDArray) :
    (NDArray.arr xs).allB p = xs.all (NDArray.allB p) := by
  simp [NDArray.allB, allBList_eq_all]

theorem allB_scalar (p : ℚ → Bool) (v : ℚ) : (NDArray.scalar v).allB p = p v := rfl

theorem shape_arr_cons (x : NDArray) (xs : List NDArray) :
    (NDArray.arr (x :: xs)).shape = (xs.length + 1) :: x.shape := rfl

theorem shape_arr_map_scalar (l : List Nat) (g : Nat → ℚ) (hl : l ≠ []) :
    (NDArray.arr (l.map fun v => .scalar (g v))).shape = [l.length] := by
  cases l with
  | nil => exact absurd rfl hl
  | cons a t => simp [NDArray.shape]

theorem shape_level (n : Nat) (t : Nat → NDArray) (s : List Nat) (hn : 0 < n)
    (hs : ∀ i, i < n → (t i).shape = s) :
    (NDArray.arr ((List.range n).map t)).shape = n :: s := by
  obtain ⟨m, rfl⟩ : ∃ m, n = m + 1 := ⟨n - 1, by omega⟩
  rw [List.range_succ_eq_map]
  simp only [List.map_cons, NDArray.shape, List.length_map, List.length_range]
  rw [hs 0 (by omega)]

theorem getIdx_batch (is : List Nat) (x : NDArray) :
    getIdx (0 :: is) (.arr [x]) = getIdx is x := rfl

theorem getIdx_level (n i : Nat) (is : List Nat) (t : Nat → NDArray) (h : i < n) :
    getIdx (i :: is) (.arr ((List.range n).map t)) = getIdx is (t i) := by
  simp [getIdx, List.getElem?_map, List.getElem?_range, h]

theorem getIdx_scalar_list (l : List Nat) (g : Nat → ℚ) (c v : Nat)
    (h : l[c]? = some v) :
    getIdx [c] (.arr (l.map fun w => .scalar (g w))) = some (g v) := by
  simp [getIdx, List.getElem?_map, h]

theorem allB_batch (p : ℚ → Bool) (x : NDArray) (h : x.allB p = true) :
    (NDArray.arr [x]).allB p = true := by
  rw [allB_arr]; simp [h]

theorem allB_level (p : ℚ → Bool) (n : Nat) (t : Nat → NDArray)
    (h : ∀ i, i < n → (t i).allB p = true) :
    (NDArray.arr ((List.range n).map t)).allB p = true := by
  rw [allB_arr, List.all_eq_true]
  intro x hx
  simp only [List.mem_map, List.mem_range] at hx
  obtain ⟨i, hi, rfl⟩ := hx
  exact h i hi

theorem allB_scalar_list (p : ℚ → Bool) (l : List Nat) (g : Nat → ℚ)
    (h : ∀ v ∈ l, p (g v) = true) :
    (NDArray.arr (l.map fun v => .scalar (g v))).allB p = true := by
  rw [allB_arr, List.all_eq_true]
  intro x hx
  simp only [List.mem_map] at hx
  obtain ⟨v, hv, rfl⟩ := hx
  rw [allB_scalar]
  exact h v hv

theorem unit_interval_div255 (v : Nat) (hv : v ≤ 255) :
    (decide ((0:ℚ) ≤ (v:ℚ)/255) && decide ((v:ℚ)/255 ≤ 1)) = true := by
  rw [Bool.and_eq_true, decide_eq_true_eq, decide_eq_true_eq]
  constructor
  · positivity
  · rw [div_le_one (by norm_num)]
    exact_mod_cast hv

theorem shape_batch3 (q : Nat → Nat → List Nat) (hlen : ∀ y x, (q y x).length = 3) :
    (NDArray.arr [.arr ((List.range 224).map fun y =>
      .arr ((List.range 224).map fun x =>
        .arr ((q y x).map fun (v : ℕ) => NDArray.scalar ((v : ℚ) / 255))))]).shape =
      [1, 224, 224, 3] := by
  have h0 : ∀ y x, (NDArray.arr ((q y x).map fun (v : ℕ) =>
      NDArray.scalar ((v : ℚ) / 255))).shape = [3] := by
    intro y x
    have hnil : q y x ≠ [] := by
      intro hn
      have := hlen y x
      rw [hn] at this
      simp at this
    rw [shape_arr_map_scalar _ _ hnil, hlen y x]
  rw [shape_arr_cons]
  rw [shape_level 224 _ [224, 3] (by norm_num)
    (fun i hi => shape_level 224 _ [3] (by norm_num) (fun j hj => h0 i j))]
  simp

theorem getIdx_batch3 (q : Nat → Nat → List Nat) (y x c v : Nat)
    (hy : y < 224) (hx : x < 224) (hqc : (q y x)[c]? = some v) :
    getIdx [0, y, x, c] (NDArray.arr [.arr ((List.range 224).map fun i =>
      .arr ((List.range 224).map fun j =>
        .arr ((q i j).map fun (w : ℕ) => NDArray.scalar ((w : ℚ) / 255))))]) =
      some ((v : ℚ) / 255) := by
  have e1 : getIdx [0, y, x, c] (NDArray.arr [.arr ((List.range 224).map fun i =>
      .arr ((List.range 224).map fun j =>
        .arr ((q i j).map fun (w : ℕ) => NDArray.scalar ((w : ℚ) / 255))))]) =
      getIdx [x, c] (NDArray.arr ((List.range 224).map fun j =>
        .arr ((q y j).map fun (w : ℕ) => NDArray.scalar ((w : ℚ) / 255)))) := by
    rw [getIdx_batch, getIdx_level _ _ _ _ hy]
  have e2 : getIdx [x, c] (NDArray.arr ((List.range 224).map fun j =>
      .arr ((q y j).map fun (w : ℕ) => NDArray.scalar ((w : ℚ) / 255)))) =
      getIdx [c] (NDArray.arr ((q y x).map fun (w : ℕ) => NDArray.scalar ((w : ℚ) / 255))) := by
    rw [getIdx_level _ _ _ _ hx]
  rw [e1, e2]
  exact getIdx_scalar_list _ _ _ _ hqc

theorem allB_batch3 (q : Nat → Nat → List Nat)
    (hbound : ∀ y x, ∀ v ∈ q y x, v ≤ 255) :
    (NDArray.arr [.arr ((List.range 224).map fun y =>
      .arr ((List.range 224).map fun x =>
        .arr ((q y x).map fun (v : ℕ) => NDArray.scalar ((v : ℚ) / 255))))]).allB
      (fun s => decide (0 ≤ s) && decide (s ≤ 1)) = true := by
  apply allB_batch
  apply allB_level
  intro y hy
  apply allB_level
  intro x hx
  apply allB_scalar_list
  intro v hv
  exact unit_interval_div255 v (hbound y x v hv)

-- ### The preprocessing pipeline in explicit form

theorem resize_ok (img : PILImage) (hok : img.corrupt = false) (size : Nat × Nat) :
    img.resize size = .ok
      { mode := img.mode, width := size.1, height := size.2,
        px := fun y x => img.px (y * img.height / size.2) (x * img.width / size.1),
        corrupt := false } := by
  simp [PILImage.resize, hok]

theorem preprocess_eq_3d (img r : PILImage)
    (hres : img.resize (IMG_WIDTH, IMG_HEIGHT) = .ok r)
    (hmode : r.mode ≠ "RGBA") (hch : channels r.mode ≠ 1) :
    preprocess_image img = some (.arr [.arr ((List.range r.height).map fun y =>
      .arr ((List.range r.width).map fun x =>
        .arr ((r.px y x).map fun (v : ℕ) => NDArray.scalar ((v : ℚ) / 255))))]) := by
  unfold preprocess_image
  rw [hres]
  simp only [if_neg hmode, imageToArray, if_neg hch, div255_arr, div255_scalar,
    List.map_map, Function.comp_def]

theorem preprocess_eq_rgba (img r : PILImage)
    (hres : img.resize (IMG_WIDTH, IMG_HEIGHT) = .ok r)
    (hmode : r.mode = "RGBA") :
    preprocess_image img = some (.arr [.arr ((List.range r.height).map fun y =>
      .arr ((List.range r.width).map fun x =>
        .arr (((r.px y x).take 3).map fun (v : ℕ) => NDArray.scalar ((v : ℚ) / 255))))]) := by
  have hne : ¬channels "RGB" = 1 := by decide
  unfold preprocess_image
  rw [hres]
  simp only [if_pos hmode, PILImage.convertRGB, imageToArray, if_neg hne, div255_arr,
    div255_scalar, List.map_map, Function.comp_def]

theorem preprocess_eq_2d (img r : PILImage)
    (hres : img.resize (IMG_WIDTH, IMG_HEIGHT) = .ok r)
    (hmode : r.mode = "L") :
    preprocess_image img = some (.arr [.arr ((List.range r.height).map fun y =>
      .arr ((List.range r.width).map fun x =>
        .scalar ((((r.px y x).headD 0 : Nat) : ℚ) / 255)))]) := by
  have hne : ¬r.mode = "RGBA" := by rw [hmode]; decide
  have hch : channels r.mode = 1 := by rw [hmode]; rfl
  unfold preprocess_image
  rw [hres]
  simp only [if_neg hne, imageToArray, if_pos hch, div255_arr, div255_scalar,
    List.map_map, Function.comp_def]

theorem shape_batch2 (g : Nat → Nat → ℚ) :
    (NDArray.arr [.arr ((List.range 224).map fun y =>
      .arr ((List.range 224).map fun x => .scalar (g y x)))]).shape = [1, 224, 224] := by
  have inner : ∀ i, i < 224 → (NDArray.arr ((List.range 224).map fun x =>
      NDArray.scalar (g i x))).shape = [224] := by
    intro i hi
    have h2 : ∀ j, j < 224 → (NDArray.scalar (g i j)).shape = ([] : List ℕ) :=
      fun j hj => rfl
    exact shape_level 224 _ [] (by norm_num) h2
  rw [shape_arr_cons, shape_level 224 _ [224] (by norm_num) inner]
  simp

-- ### Theorems about the image normalizer (`preprocess_image`)

/-- C3: for an RGB or RGBA image of arbitrary size with 8-bit channels,
`preprocess_image` succeeds with an array of shape `(1, 224, 224, 3)` whose
every element is the corresponding resized pixel's channel byte divided by
255, hence lies in `[0, 1]`. -/
theorem preprocess_rgb_rgba (img : PILImage) (hWF : img.WF)
    (hmode : img.mode = "RGB" ∨ img.mode = "RGBA") (hok : img.corrupt = false) :
    ∃ rimg a, img.resize (IMG_WIDTH, IMG_HEIGHT) = .ok rimg ∧
      preprocess_image img = some a ∧
      a.shape = [1, 224, 224, 3] ∧
      (∀ y x c (v : ℕ), y < 224 → x < 224 → c < 3 → (rimg.px y x)[c]? = some v →
        getIdx [0, y, x, c] a = some ((v : ℚ) / 255)) ∧
      a.allB (fun s => decide (0 ≤ s) && decide (s ≤ 1)) = true := by
  have hres := resize_ok img hok (IMG_WIDTH, IMG_HEIGHT)
  rcases hmode with hmodeR | hmodeA
  · have hne : ¬img.mode = "RGBA" := by rw [hmodeR]; decide
    have hch : ¬channels img.mode = 1 := by rw [hmodeR]; decide
    have hlen3 : ∀ y x : ℕ,
        (img.px (y * img.height / IMG_HEIGHT) (x * img.width / IMG_WIDTH)).length = 3 := by
      intro y x
      rw [(hWF _ _).1, hmodeR]
      decide
    refine ⟨_, _, hres, preprocess_eq_3d img _ hres hne hch, ?_, ?_, ?_⟩
    · exact shape_batch3 _ hlen3
    · intro y x c v hy hx hc hqc
      exact getIdx_batch3 _ y x c v hy hx hqc
    · exact allB_batch3 _ (fun y x v hv => (hWF _ _).2 v hv)
  · have hlen3 : ∀ y x : ℕ,
        ((img.px (y * img.height / IMG_HEIGHT) (x * img.width / IMG_WIDTH)).take 3).length
          = 3 := by
      intro y x
      rw [List.length_take, (hWF _ _).1, hmodeA]
      decide
    refine ⟨_, _, hres, preprocess_eq_rgba img _ hres hmodeA, ?_, ?_, ?_⟩
    · exact shape_batch3 _ hlen3
    · intro y x c v hy hx hc hqc
      refine getIdx_batch3 _ y x c v hy hx ?_
      rw [List.getElem?_take_of_lt hc]
      exact hqc
    · exact allB_batch3 _ (fun y x v hv => (hWF _ _).2 v (List.take_subset _ _ hv))

/-- Witness for C3 on the concrete RGB image `rgbImg`. -/
theorem preprocess_rgb_rgba_witness :
    rgbImg.WF ∧ (rgbImg.mode = "RGB" ∨ rgbImg.mode = "RGBA") ∧
    rgbImg.corrupt = false ∧
    (∃ rimg a, rgbImg.resize (IMG_WIDTH, IMG_HEIGHT) = .ok rimg ∧
      preprocess_image rgbImg = some a ∧
      a.shape = [1, 224, 224, 3] ∧
      (∀ y x c (v : ℕ), y < 224 → x < 224 → c < 3 → (rimg.px y x)[c]? = some v →
        getIdx [0, y, x, c] a = some ((v : ℚ) / 255)) ∧
      a.allB (fun s => decide (0 ≤ s) && decide (s ≤ 1)) = true) := by
  have hwf : rgbImg.WF := by
    intro y x
    refine ⟨?_, ?_⟩
    · show ([10, 20, 30] : List ℕ).length = channels "RGB"
      decide
    · show ∀ v ∈ ([10, 20, 30] : List ℕ), v ≤ 255
      decide
  exact ⟨hwf, Or.inl rfl, rfl, preprocess_rgb_rgba rgbImg hwf (Or.inl rfl) rfl⟩

/-- C6: a decode/resize failure inside `preprocess_image` is caught and
reported as the distinct `none` outcome; the embedding is a total function,
so no exception propagates to the caller. -/
theorem preprocess_failure_none (img : PILImage) (h : img.corrupt = true) :
    preprocess_image img = none := by
  simp [preprocess_image, PILImage.resize, h]

/-- Witness for C6 on the concrete corrupt image. -/
theorem preprocess_failure_none_witness :
    corruptImg.corrupt = true ∧ preprocess_image corruptImg = none :=
  ⟨rfl, preprocess_failure_none corruptImg rfl⟩

/-- C9: a grayscale (`"L"`-mode) image is not converted — the RGBA-to-RGB
step is guarded by an exact mode check — and `preprocess_image` succeeds
with a 3-D array of shape `(1, 224, 224)`, not `(1, 224, 224, 3)`. -/
theorem preprocess_grayscale (img : PILImage) (hmode : img.mode = "L")
    (hok : img.corrupt = false) :
    ∃ a, preprocess_image img = some a ∧
      a.shape = [1, 224, 224] ∧ a.shape ≠ [1, 224, 224, 3] := by
  have hres := resize_ok img hok (IMG_WIDTH, IMG_HEIGHT)
  have hpre := preprocess_eq_2d img _ hres hmode
  have hsh := shape_batch2 (fun y x =>
    (((img.px (y * img.height / IMG_HEIGHT) (x * img.width / IMG_WIDTH)).headD 0 : Nat)
      : ℚ) / 255)
  refine ⟨_, hpre, hsh, ?_⟩
  exact fun hco => absurd (hsh.symm.trans hco) (by decide)

/-- Witness for C9 on the concrete grayscale image `grayImg`. -/
theorem preprocess_grayscale_witness :
    grayImg.mode = "L" ∧ grayImg.corrupt = false ∧
    (∃ a, preprocess_image grayImg = some a ∧
      a.shape = [1, 224, 224] ∧ a.shape ≠ [1, 224, 224, 3]) :=
  ⟨rfl, rfl, preprocess_grayscale grayImg rfl rfl⟩
